import Mathlib

/-!
Shallow embedding of the two sample scripts in
samples/agent-catalog/a2a-foundry-agent: basic_agent_a2a.py and
agent_a2a_with_tools.py.  The AzureTokenAuth class is textually identical
in the two files (lines 33-66 of basic_agent_a2a.py, lines 41-74 of
agent_a2a_with_tools.py); it is embedded once.  The script main bodies
are embedded as abstract step lists in statement order, and the
environment-variable interface as functions over an environment map.
-/

/-- An access token as returned by get_token of an Azure credential; the
auth flows read its token attribute. -/
structure AccessToken where
  token : String
deriving DecidableEq

/-- HTTP headers of an httpx request, as a mapping from header name to
value; assigning request.headers[name] replaces the value at that name. -/
def Headers : Type := String → Option String

/-- Header assignment request.headers[k] = v. -/
def setHeader (hs : Headers) (k v : String) : Headers :=
  fun k2 => if k2 = k then some v else hs k2

/-- An httpx request as the auth flows see it: method, URL, headers and
body. -/
structure Request where
  method : String
  url : String
  headers : Headers
  body : String

/-- A Python error the auth flows can raise: the RuntimeError from
the internal check method for a missing provider, or the IndexError from
evaluating scopes[0] on an empty list. -/
inductive PyErr where
  | runtimeError (msg : String)
  | indexError
deriving DecidableEq

/-- The AzureTokenAuth constructor state: a scopes list plus an optional
synchronous and an optional asynchronous token provider, both defaulting
to None.  A provider is modelled as the function taking a scope to the
AccessToken its get_token returns. -/
structure AzureTokenAuth where
  scopes : List String
  token_provider : Option (String → AccessToken) := none
  async_token_provider : Option (String → AccessToken) := none

/-- The observable behaviour of running one auth-flow generator to
completion: the final state of the request object, the requests yielded
onward, and the error raised, if any. -/
structure FlowTrace where
  finalRequest : Request
  yielded : List Request
  error : Option PyErr

/-- The RuntimeError that the internal method raises for a
missing provider described by text; its message interpolates text into
a fixed format string. -/
def no_token_error (text : String) : PyErr :=
  .runtimeError ("No " ++ text ++ " token provider were supplied.")

/-- A flow run that raised error e before touching the request: the
request is unchanged and nothing was yielded. -/
def raisedResult (r : Request) (e : PyErr) : FlowTrace :=
  { finalRequest := r, yielded := [], error := some e }

/-- A flow run that set the Authorization header to the bearer form of
token value t and then yielded the (mutated) request once. -/
def bearerResult (r : Request) (t : String) : FlowTrace :=
  { finalRequest := { r with headers := setHeader r.headers ("Authorization") ("Bearer " ++ t) },
    yielded := [{ r with headers := setHeader r.headers ("Authorization") ("Bearer " ++ t) }],
    error := none }

/-- sync_auth_flow: first the internal check raises RuntimeError when
token_provider is None; otherwise the flow evaluates scopes[0] (IndexError
on an empty list), sets the Authorization header to the bearer token for
that scope, and yields the request. -/
def sync_auth_flow (a : AzureTokenAuth) (r : Request) : FlowTrace :=
  match a.token_provider with
  | none => raisedResult r (no_token_error ("synchronous"))
  | some tp =>
    match a.scopes[0]? with
    | none => raisedResult r .indexError
    | some scope => bearerResult r (tp scope).token

/-- async_auth_flow: identical to sync_auth_flow except that it checks and
uses async_token_provider (awaiting its get_token). -/
def async_auth_flow (a : AzureTokenAuth) (r : Request) : FlowTrace :=
  match a.async_token_provider with
  | none => raisedResult r (no_token_error ("asynchronous"))
  | some tp =>
    match a.scopes[0]? with
    | none => raisedResult r .indexError
    | some scope => bearerResult r (tp scope).token

/-- Whether a flow run raised a RuntimeError (as opposed to finishing, or
raising an IndexError). -/
def raisesRuntimeError (t : FlowTrace) : Bool :=
  match t.error with
  | some (.runtimeError _) => true
  | _ => false

/-- Abstract steps of the script main bodies, at the granularity of the
specification. -/
inductive Step where
  | instantiateClients
  | configureBearerAuth
  | uploadFile
  | createVectorIndex
  | createAgent
  | registerTool
  | createThread
  | createMessage
  | runAgent
  | sendA2AMessage
  | printResults
  | deleteResources
deriving DecidableEq

/-- Steps of main in agent_a2a_with_tools.py (lines 127-224) in statement
order: credential and AgentsClient construction (128-133), the bearer
credential configured on the client (132), file upload (136), vector
store creation (139), file-search agent creation (145), registration of
the remote a2a agent invocation as a function tool (156-167), agent
creation with the toolset (170), thread (181), message (185), run
(191), message listing and prints (195-207), resource deletion
(211-224). -/
def toolsSteps : List Step :=
  [ .instantiateClients, .configureBearerAuth,
    .uploadFile, .printResults,
    .createVectorIndex, .printResults,
    .createAgent, .printResults,
    .registerTool,
    .createAgent, .printResults,
    .createThread, .printResults,
    .createMessage, .printResults,
    .runAgent, .printResults,
    .printResults,
    .deleteResources, .printResults ]

/-- Steps of main in basic_agent_a2a.py (lines 69-115) in statement
order: credential and AgentsClient construction (70-75), the bearer
credential configured on the client (74), agent creation (77), the httpx
client and A2AClient construction (84-94) with AzureTokenAuth (85-88),
send_message (111), response print (112), agent deletion (114). -/
def basicSteps : List Step :=
  [ .instantiateClients, .configureBearerAuth,
    .createAgent, .printResults,
    .instantiateClients, .configureBearerAuth,
    .sendA2AMessage, .printResults,
    .deleteResources, .printResults ]

/-- The ordered pipeline asserted by the specification claim: instantiate
the SDK clients, authenticate via a bearer-token credential, upload a
reference file, create a vector index, register a remote agent invocation
as a callable tool, and print results. -/
def claimedPipeline : List Step :=
  [ .instantiateClients, .configureBearerAuth, .uploadFile,
    .createVectorIndex, .registerTool, .printResults ]

/-- Whether the first list occurs in order (not necessarily contiguously)
inside the second. -/
def isSubseqOf : List Step → List Step → Bool
  | [], _ => true
  | _ :: _, [] => false
  | a :: as, b :: bs => if a = b then isSubseqOf as bs else isSubseqOf (a :: as) bs

/-- Actions agent_a2a_with_tools.py can take after the run completes.
The retry and recreate constructors describe recovery actions the claim
rules out; the source only prints. -/
inductive RunAction where
  | printStatusLine (status : String)
  | printFailureLine (lastError : String)
  | retryRun
  | recreateRun
deriving DecidableEq

/-- The post-run handling of agent_a2a_with_tools.py (lines 195-199): it
prints the terminal status, then prints the failure line with last_error
exactly when the status equals failed. -/
def after_run_handling (status lastError : String) : List RunAction :=
  .printStatusLine status ::
    (if status = "failed" then [.printFailureLine lastError] else [])

/-- A process environment: a mapping from variable name to value. -/
def Env : Type := String → Option String

/-- Whether an Except value is a success. -/
def exceptOk {e a : Type} : Except e a → Bool
  | .ok _ => true
  | .error _ => false

/-- The environment lookups main of basic_agent_a2a.py performs, in
source order (PROJECT_ENDPOINT at line 71, MODEL_DEPLOYMENT_NAME at
line 78); os.environ subscripting raises KeyError when the variable is
absent. -/
def basic_env_reads (env : Env) : Except String (String × String) :=
  match env ("PROJECT_ENDPOINT") with
  | none => .error ("KeyError: PROJECT_ENDPOINT")
  | some ep =>
    match env ("MODEL_DEPLOYMENT_NAME") with
    | none => .error ("KeyError: MODEL_DEPLOYMENT_NAME")
    | some model => .ok (ep, model)

/-- The environment lookups main of agent_a2a_with_tools.py performs, in
source order (PROJECT_ENDPOINT at line 129, MODEL_DEPLOYMENT_NAME at
lines 146 and 171). -/
def tools_env_reads (env : Env) : Except String (String × String × String) :=
  match env ("PROJECT_ENDPOINT") with
  | none => .error ("KeyError: PROJECT_ENDPOINT")
  | some ep =>
    match env ("MODEL_DEPLOYMENT_NAME") with
    | none => .error ("KeyError: MODEL_DEPLOYMENT_NAME")
    | some model1 =>
      match env ("MODEL_DEPLOYMENT_NAME") with
      | none => .error ("KeyError: MODEL_DEPLOYMENT_NAME")
      | some model2 => .ok (ep, model1, model2)

/-- The keyword names passed to response.model_dump in both scripts
(agent_a2a_with_tools.py line 122, basic_agent_a2a.py line 112), exactly
as written in the source. -/
def model_dump_call_kwargs : List String := ["mode", "excluse_none"]

/-- The pydantic model_dump keyword argument that excludes None-valued
fields from the serialized output. -/
def exclude_none_keyword : String := "exclude_none"

/-! Concrete fixtures used by the witness theorems. -/

/-- A concrete token provider for tests: each scope maps to a
recognisable token value. -/
def testToken (s : String) : AccessToken := ⟨"token-for-" ++ s⟩

/-- A concrete request with no headers set. -/
def testRequest : Request :=
  { method := "POST", url := "https://example.invalid/agent",
    headers := fun _ => none, body := "payload" }

/-- An auth configuration with both providers and two scopes. -/
def authBoth : AzureTokenAuth :=
  { scopes := ["scope-a", "scope-b"],
    token_provider := some testToken,
    async_token_provider := some testToken }

/-- An auth configuration with neither provider supplied. -/
def authNone : AzureTokenAuth := { scopes := ["scope-a"] }

/-- An auth configuration like authBoth but with only the first scope. -/
def authHeadOnly : AzureTokenAuth :=
  { scopes := ["scope-a"],
    token_provider := some testToken,
    async_token_provider := some testToken }

/-- An auth configuration with both providers but an empty scopes list. -/
def authNoScopes : AzureTokenAuth :=
  { scopes := [],
    token_provider := some testToken,
    async_token_provider := some testToken }

/-- The request testRequest after the flow attached the bearer header for
the scope-a token. -/
def bearerTestRequest : Request :=
  { testRequest with
    headers := setHeader testRequest.headers ("Authorization")
      ("Bearer " ++ (testToken ("scope-a")).token) }

/-- A concrete environment defining exactly the two documented variables. -/
def envFull : Env := fun k =>
  if k = "PROJECT_ENDPOINT" then some ("https://proj.example.invalid")
  else if k = "MODEL_DEPLOYMENT_NAME" then some ("gpt-model")
  else none

/-- A concrete environment agreeing with envFull on the two documented
variables but differing everywhere else. -/
def envFullNoisy : Env := fun k =>
  if k = "PROJECT_ENDPOINT" then some ("https://proj.example.invalid")
  else if k = "MODEL_DEPLOYMENT_NAME" then some ("gpt-model")
  else some ("unrelated-value")

/-! Helper lemmas. -/

/-- Setting one header leaves every other header name unchanged. -/
theorem setHeader_ne (hs : Headers) (k v k2 : String) (h : k2 ≠ k) :
    setHeader hs k v k2 = hs k2 := by
  simp [setHeader, h]

/-! Claim theorems. -/

/-- C1: for every AzureTokenAuth configuration and request, sync_auth_flow
raises a RuntimeError if and only if token_provider is None, and
async_auth_flow raises a RuntimeError if and only if async_token_provider
is None, independently of whether the other variant was supplied. -/
theorem runtime_error_iff_missing_provider (a : AzureTokenAuth) (r : Request) :
    (raisesRuntimeError (sync_auth_flow a r) = true ↔ a.token_provider = none) ∧
    (raisesRuntimeError (async_auth_flow a r) = true ↔ a.async_token_provider = none) := by
  constructor
  · cases hp : a.token_provider with
    | none =>
      simp [sync_auth_flow, hp, raisesRuntimeError, raisedResult, no_token_error]
    | some tp =>
      cases hs : a.scopes[0]? <;>
        simp [sync_auth_flow, hp, hs, raisesRuntimeError, raisedResult, bearerResult]
  · cases hp : a.async_token_provider with
    | none =>
      simp [async_auth_flow, hp, raisesRuntimeError, raisedResult, no_token_error]
    | some tp =>
      cases hs : a.scopes[0]? <;>
        simp [async_auth_flow, hp, hs, raisesRuntimeError, raisedResult, bearerResult]

/-- C1 witness: with neither provider supplied, both flows raise a
RuntimeError on a concrete request. -/
theorem runtime_error_iff_missing_provider_witness :
    raisesRuntimeError (sync_auth_flow authNone testRequest) = true ∧
    raisesRuntimeError (async_auth_flow authNone testRequest) = true :=
  ⟨(runtime_error_iff_missing_provider authNone testRequest).1.mpr rfl,
   (runtime_error_iff_missing_provider authNone testRequest).2.mpr rfl⟩

/-- C2: with the matching provider supplied and a non-empty scopes list,
each flow obtains the token for the first scope from that provider, sets
the Authorization header to the string Bearer followed by a space and the
token value, and yields exactly that request. -/
theorem bearer_header_from_first_scope (a : AzureTokenAuth) (r : Request)
    (tp : String → AccessToken) (s : String) (rest : List String)
    (hs : a.scopes = s :: rest) :
    (a.token_provider = some tp →
       sync_auth_flow a r = bearerResult r (tp s).token) ∧
    (a.async_token_provider = some tp →
       async_auth_flow a r = bearerResult r (tp s).token) := by
  constructor
  · intro hp
    simp [sync_auth_flow, hp, hs]
  · intro hp
    simp [async_auth_flow, hp, hs]

/-- C2 witness: on a concrete configuration with both providers and two
scopes, both flows attach the bearer token for the first scope. -/
theorem bearer_header_from_first_scope_witness :
    sync_auth_flow authBoth testRequest
      = bearerResult testRequest (testToken ("scope-a")).token ∧
    async_auth_flow authBoth testRequest
      = bearerResult testRequest (testToken ("scope-a")).token :=
  ⟨(bearer_header_from_first_scope authBoth testRequest testToken
      ("scope-a") (["scope-b"]) rfl).1 rfl,
   (bearer_header_from_first_scope authBoth testRequest testToken
      ("scope-a") (["scope-b"]) rfl).2 rfl⟩

/-- C3: the serialization call in both scripts does not pass the pydantic
keyword exclude_none; it passes the misspelled keyword excluse_none
instead, so the responses are not serialized with None-valued fields
excluded as the specification intends. -/
theorem model_dump_misses_exclude_none :
    exclude_none_keyword ∉ model_dump_call_kwargs ∧
    "excluse_none" ∈ model_dump_call_kwargs := by
  decide

/-- C4 counterexample: the claimed six-step pipeline is not performed by
each of the two scripts; basic_agent_a2a.py never uploads a file, so the
pipeline does not occur in its step sequence. -/
theorem claimed_pipeline_fails_on_basic :
    ¬ (isSubseqOf claimedPipeline toolsSteps = true ∧
       isSubseqOf claimedPipeline basicSteps = true) := by
  decide

/-- C4 amended: agent_a2a_with_tools.py performs the claimed pipeline in
order, while basic_agent_a2a.py instantiates the SDK clients,
authenticates via a bearer-token credential and prints results, but
uploads no file, creates no vector index and registers no tool. -/
theorem scripts_pipeline_order :
    isSubseqOf claimedPipeline toolsSteps = true ∧
    isSubseqOf
      [Step.instantiateClients, Step.configureBearerAuth, Step.printResults]
      basicSteps = true ∧
    Step.uploadFile ∉ basicSteps ∧
    Step.createVectorIndex ∉ basicSteps ∧
    Step.registerTool ∉ basicSteps := by
  decide

/-- C5: after the run completes, agent_a2a_with_tools.py prints the
failure line carrying last_error exactly when the terminal status equals
failed, performs no retry or re-creation in its post-run handling, and
creates the run exactly once in the whole script. -/
theorem run_terminal_status_handling (status lastError : String) :
    (RunAction.printFailureLine lastError ∈ after_run_handling status lastError
       ↔ status = "failed") ∧
    RunAction.retryRun ∉ after_run_handling status lastError ∧
    RunAction.recreateRun ∉ after_run_handling status lastError ∧
    toolsSteps.count Step.runAgent = 1 := by
  by_cases hs : status = "failed" <;>
    simp [after_run_handling, hs] <;> decide

/-- C5 witness: at the concrete failed status, the failure line with the
run error is among the post-run actions. -/
theorem run_terminal_status_handling_witness :
    RunAction.printFailureLine ("boom") ∈ after_run_handling ("failed") ("boom") :=
  (run_terminal_status_handling ("failed") ("boom")).1.mpr rfl

/-- C6: each script reads exactly the two environment variables
PROJECT_ENDPOINT and MODEL_DEPLOYMENT_NAME: its reads succeed if and only
if both are set, and two environments that agree on these two variables
give both scripts identical environment-derived configurations. -/
theorem scripts_env_interface (e1 e2 : Env)
    (hp : e1 ("PROJECT_ENDPOINT") = e2 ("PROJECT_ENDPOINT"))
    (hm : e1 ("MODEL_DEPLOYMENT_NAME") = e2 ("MODEL_DEPLOYMENT_NAME")) :
    basic_env_reads e1 = basic_env_reads e2 ∧
    tools_env_reads e1 = tools_env_reads e2 ∧
    (exceptOk (basic_env_reads e1) = true ↔
       (e1 ("PROJECT_ENDPOINT")).isSome = true ∧
       (e1 ("MODEL_DEPLOYMENT_NAME")).isSome = true) ∧
    (exceptOk (tools_env_reads e1) = true ↔
       (e1 ("PROJECT_ENDPOINT")).isSome = true ∧
       (e1 ("MODEL_DEPLOYMENT_NAME")).isSome = true) := by
  refine ⟨?_, ?_, ?_, ?_⟩
  · simp only [basic_env_reads, hp, hm]
  · simp only [tools_env_reads, hp, hm]
  · cases h1 : e1 ("PROJECT_ENDPOINT") <;>
      cases h2 : e1 ("MODEL_DEPLOYMENT_NAME") <;>
      simp [basic_env_reads, exceptOk, h1, h2]
  · cases h1 : e1 ("PROJECT_ENDPOINT") <;>
      cases h2 : e1 ("MODEL_DEPLOYMENT_NAME") <;>
      simp [tools_env_reads, exceptOk, h1, h2]

/-- C6 witness: two concrete environments agreeing only on the two
documented variables give identical reads, and the reads succeed when
both variables are set. -/
theorem scripts_env_interface_witness :
    basic_env_reads envFull = basic_env_reads envFullNoisy ∧
    tools_env_reads envFull = tools_env_reads envFullNoisy ∧
    exceptOk (basic_env_reads envFull) = true := by
  have h := scripts_env_interface envFull envFullNoisy (by decide) (by decide)
  exact ⟨h.1, h.2.1, h.2.2.1.mpr (by decide)⟩

/-- C7: every request yielded by either flow agrees with the input
request on the method, the URL, the body, and every header other than
Authorization: attaching the bearer token is the only effect. -/
theorem auth_flow_frame (a : AzureTokenAuth) (r r2 : Request)
    (h : r2 ∈ (sync_auth_flow a r).yielded ∨ r2 ∈ (async_auth_flow a r).yielded) :
    r2.method = r.method ∧ r2.url = r.url ∧ r2.body = r.body ∧
    ∀ k, k ≠ "Authorization" → r2.headers k = r.headers k := by
  rcases h with h | h
  · cases hp : a.token_provider with
    | none => simp [sync_auth_flow, hp, raisedResult] at h
    | some tp =>
      cases hs : a.scopes[0]? with
      | none => simp [sync_auth_flow, hp, hs, raisedResult] at h
      | some scope =>
        simp only [sync_auth_flow, hp, hs, bearerResult,
          List.mem_singleton] at h
        subst h
        exact ⟨rfl, rfl, rfl,
          fun k hk => setHeader_ne r.headers ("Authorization") _ k hk⟩
  · cases hp : a.async_token_provider with
    | none => simp [async_auth_flow, hp, raisedResult] at h
    | some tp =>
      cases hs : a.scopes[0]? with
      | none => simp [async_auth_flow, hp, hs, raisedResult] at h
      | some scope =>
        simp only [async_auth_flow, hp, hs, bearerResult,
          List.mem_singleton] at h
        subst h
        exact ⟨rfl, rfl, rfl,
          fun k hk => setHeader_ne r.headers ("Authorization") _ k hk⟩

/-- C7 witness: the concrete request yielded by the sync flow keeps the
method and an unrelated header of the input request. -/
theorem auth_flow_frame_witness :
    bearerTestRequest.method = testRequest.method ∧
    bearerTestRequest.headers ("Content-Type")
      = testRequest.headers ("Content-Type") := by
  have h := auth_flow_frame authBoth testRequest bearerTestRequest
    (Or.inl (List.mem_singleton_self bearerTestRequest))
  exact ⟨h.1, h.2.2.2 ("Content-Type") (by decide)⟩

/-- C8: when a flow raises the missing-provider RuntimeError, the request
is left entirely unchanged and is never yielded: the check precedes the
header mutation and the yield. -/
theorem raise_leaves_request_untouched (a : AzureTokenAuth) (r : Request) :
    (a.token_provider = none →
       (sync_auth_flow a r).finalRequest = r ∧
       (sync_auth_flow a r).yielded = [] ∧
       (sync_auth_flow a r).error = some (no_token_error ("synchronous"))) ∧
    (a.async_token_provider = none →
       (async_auth_flow a r).finalRequest = r ∧
       (async_auth_flow a r).yielded = [] ∧
       (async_auth_flow a r).error = some (no_token_error ("asynchronous"))) := by
  constructor
  · intro hp
    simp [sync_auth_flow, hp, raisedResult]
  · intro hp
    simp [async_auth_flow, hp, raisedResult]

/-- C8 witness: with neither provider supplied, the sync flow leaves a
concrete request unchanged and yields nothing. -/
theorem raise_leaves_request_untouched_witness :
    (sync_auth_flow authNone testRequest).finalRequest = testRequest ∧
    (sync_auth_flow authNone testRequest).yielded = [] ∧
    (async_auth_flow authNone testRequest).yielded = [] := by
  have h := raise_leaves_request_untouched authNone testRequest
  exact ⟨(h.1 rfl).1, (h.1 rfl).2.1, (h.2 rfl).2.1⟩

/-- C9: both flows depend on the scopes list only through its first
element, and when the matching provider is supplied but the scopes list
is empty, the flow fails with an IndexError from the out-of-range access,
not with the configuration RuntimeError. -/
theorem scopes_only_first_matters (a a2 : AzureTokenAuth) (r : Request) :
    (a.token_provider = a2.token_provider → a.scopes[0]? = a2.scopes[0]? →
       sync_auth_flow a r = sync_auth_flow a2 r) ∧
    (a.async_token_provider = a2.async_token_provider →
       a.scopes[0]? = a2.scopes[0]? →
       async_auth_flow a r = async_auth_flow a2 r) ∧
    (a.token_provider.isSome = true → a.scopes = [] →
       sync_auth_flow a r = raisedResult r .indexError) ∧
    (a.async_token_provider.isSome = true → a.scopes = [] →
       async_auth_flow a r = raisedResult r .indexError) := by
  refine ⟨?_, ?_, ?_, ?_⟩
  · intro hp hs
    simp only [sync_auth_flow, hp, hs]
  · intro hp hs
    simp only [async_auth_flow, hp, hs]
  · intro hp hs
    cases htp : a.token_provider with
    | none => simp [htp] at hp
    | some tp => simp [sync_auth_flow, htp, hs]
  · intro hp hs
    cases htp : a.async_token_provider with
    | none => simp [htp] at hp
    | some tp => simp [async_auth_flow, htp, hs]

/-- C9 witness: dropping the second scope does not change the sync flow,
and with providers supplied but no scopes the flow raises IndexError on a
concrete request. -/
theorem scopes_only_first_matters_witness :
    sync_auth_flow authBoth testRequest = sync_auth_flow authHeadOnly testRequest ∧
    sync_auth_flow authNoScopes testRequest
      = raisedResult testRequest .indexError ∧
    async_auth_flow authNoScopes testRequest
      = raisedResult testRequest .indexError :=
  ⟨(scopes_only_first_matters authBoth authHeadOnly testRequest).1 rfl rfl,
   (scopes_only_first_matters authNoScopes authNoScopes testRequest).2.2.1 rfl rfl,
   (scopes_only_first_matters authNoScopes authNoScopes testRequest).2.2.2 rfl rfl⟩
